import Mathlib

/-!
# Verification of the `tobenaii/bevy` PBR scheduling and gizmo-circle code

This file shallowly embeds the parts of the repository that the claims refer to:

* `src/crates/bevy_pbr/src/lib.rs` — `PbrPlugin::build` declares a set of
  per-frame systems in the `PostUpdate` schedule together with explicit
  ordering constraints (`.chain()`, `.after(...)`, `.in_set(...)`), and a set
  of render-app systems in the `ExtractSchedule` and `Render` schedules.
  We embed the declared constraint graph and prove happens-before facts that
  hold in *every* execution respecting the constraints.

* `src/crates/bevy_gizmos/src/circles.rs` — pure builder code for drawing
  circles and ellipses.  We embed the vertex generator `ellipse_inner`, the
  builders and their `Drop` implementations, with the `f32` scalar abstracted
  to an arbitrary field `K` and the trigonometric primitive `sin_cos`
  abstracted to a function parameter (the theorems instantiate it with real
  `Real.sin` / `Real.cos`).
-/

/-! ## Schedule embedding: systems and system sets of `PbrPlugin::build`

`PbrPlugin::build` (src/crates/bevy_pbr/src/lib.rs, lines 277-330) adds the
PBR simulation systems to the `PostUpdate` schedule.  Each node below is one
of those systems, or a single node standing for an external system set that
the PBR systems order themselves against (`TransformSystem::TransformPropagate`,
`VisibilitySystems::CheckVisibility`, `CameraUpdateSystem`,
`VisibilitySystems::CalculateBounds`). -/

inductive PbrNode where
  | add_clusters
  | assign_lights_to_clusters
  | clear_directional_light_cascades
  | build_directional_light_cascades
  | update_directional_light_frusta
  | update_point_light_frusta
  | update_spot_light_frusta
  | check_light_mesh_visibility
  | transform_propagate
  | check_visibility
  | camera_update_system
  | calculate_bounds
deriving DecidableEq, Fintype, Repr

/-- The system sets mentioned in `PbrPlugin::build`: the five
`SimulationLightSystems` variants used there, plus the four external sets. -/
inductive PbrSet where
  | addClusters
  | assignLightsToClusters
  | updateDirectionalLightCascades
  | updateLightFrusta
  | checkLightVisibility
  | transformPropagate
  | checkVisibility
  | cameraUpdateSystem
  | calculateBounds
deriving DecidableEq, Fintype, Repr

def allPbrSets : List PbrSet :=
  [.addClusters, .assignLightsToClusters, .updateDirectionalLightCascades,
   .updateLightFrusta, .checkLightVisibility, .transformPropagate,
   .checkVisibility, .cameraUpdateSystem, .calculateBounds]

/-- Set membership, read off the `.in_set(...)` annotations in
`PbrPlugin::build` (lib.rs lines 285-330).  The external-set nodes are the
sole members of their own sets. -/
def memberOf (n : PbrNode) (s : PbrSet) : Bool :=
  match n, s with
  | .add_clusters, .addClusters => true
  | .assign_lights_to_clusters, .assignLightsToClusters => true
  | .clear_directional_light_cascades, .updateDirectionalLightCascades => true
  | .build_directional_light_cascades, .updateDirectionalLightCascades => true
  | .update_directional_light_frusta, .updateLightFrusta => true
  | .update_point_light_frusta, .updateLightFrusta => true
  | .update_spot_light_frusta, .updateLightFrusta => true
  | .check_light_mesh_visibility, .checkLightVisibility => true
  | .transform_propagate, .transformPropagate => true
  | .check_visibility, .checkVisibility => true
  | .camera_update_system, .cameraUpdateSystem => true
  | .calculate_bounds, .calculateBounds => true
  | _, _ => false

/-- Set-level ordering: `configure_sets(PostUpdate,
(AddClusters, AssignLightsToClusters).chain())` (lib.rs lines 277-284). -/
def setBeforeSet (s t : PbrSet) : Bool :=
  match s, t with
  | .addClusters, .assignLightsToClusters => true
  | _, _ => false

/-- Direct system-to-system chains: `(clear_directional_light_cascades,
build_directional_light_cascades::<Projection>).chain()` (lib.rs lines 294-298). -/
def sysChain (u v : PbrNode) : Bool :=
  match u, v with
  | .clear_directional_light_cascades, .build_directional_light_cascades => true
  | _, _ => false

/-- The `.after(set)` annotations of each system, read off lib.rs
lines 285-330.  An `.after` applied to a chained tuple distributes to each
member of the tuple (here: both cascade systems are after
`TransformPropagate` and `CameraUpdateSystem`). -/
def afterSet (n : PbrNode) (s : PbrSet) : Bool :=
  match n, s with
  | .assign_lights_to_clusters, .transformPropagate => true
  | .assign_lights_to_clusters, .checkVisibility => true
  | .assign_lights_to_clusters, .cameraUpdateSystem => true
  | .clear_directional_light_cascades, .transformPropagate => true
  | .clear_directional_light_cascades, .cameraUpdateSystem => true
  | .build_directional_light_cascades, .transformPropagate => true
  | .build_directional_light_cascades, .cameraUpdateSystem => true
  | .update_directional_light_frusta, .checkVisibility => true
  | .update_directional_light_frusta, .transformPropagate => true
  | .update_directional_light_frusta, .updateDirectionalLightCascades => true
  | .update_point_light_frusta, .transformPropagate => true
  | .update_point_light_frusta, .assignLightsToClusters => true
  | .update_spot_light_frusta, .transformPropagate => true
  | .update_spot_light_frusta, .assignLightsToClusters => true
  | .check_light_mesh_visibility, .calculateBounds => true
  | .check_light_mesh_visibility, .transformPropagate => true
  | .check_light_mesh_visibility, .updateLightFrusta => true
  | .check_light_mesh_visibility, .checkVisibility => true
  | _, _ => false

/-- The happens-before edges induced by the declared constraints: a direct
chain between systems, a `.after(S)` constraint (every member of `S` runs
before the annotated system), or membership in a pair of chained sets (every
member of the earlier set runs before every member of the later set). -/
def scheduleEdge (u v : PbrNode) : Bool :=
  sysChain u v
    || allPbrSets.any (fun s => afterSet v s && memberOf u s)
    || allPbrSets.any (fun s =>
         allPbrSets.any (fun t => memberOf u s && memberOf v t && setBeforeSet s t))

/-- A schedule execution, abstracted to the time at which each node runs
(for an external set: the time at which all its systems have completed).
An execution is valid when it respects every declared happens-before edge;
the Bevy executor guarantees exactly this for any (parallel) run of the
schedule. -/
def ValidExec (pos : PbrNode → ℕ) : Prop :=
  ∀ u v : PbrNode, scheduleEdge u v = true → pos u < pos v

instance (pos : PbrNode → ℕ) : Decidable (ValidExec pos) := by
  unfold ValidExec; infer_instance

/-- A concrete topological order of the constraint graph, used by the
witness theorems. -/
def topoPos : PbrNode → ℕ
  | .transform_propagate => 0
  | .check_visibility => 1
  | .camera_update_system => 2
  | .calculate_bounds => 3
  | .add_clusters => 4
  | .assign_lights_to_clusters => 5
  | .clear_directional_light_cascades => 6
  | .build_directional_light_cascades => 7
  | .update_directional_light_frusta => 8
  | .update_point_light_frusta => 9
  | .update_spot_light_frusta => 10
  | .check_light_mesh_visibility => 11

/-! ## Frame-pipeline embedding for the cross-schedule claim (C6)

`check_light_mesh_visibility` is added to the main world's `PostUpdate`
schedule (lib.rs line 285/320), while `sort_phase_system::<Shadow>` is added
to the render sub-app's `Render` schedule in `RenderSet::PhaseSort`
(lib.rs line 358) and `extract_clusters` / `extract_lights` to its
`ExtractSchedule` (lib.rs line 351).  The code that runs the main-world
schedules to completion before the render app's extraction and render
schedules lives in `bevy_app` / `bevy_render`, which are not under `src/`. -/

/-- Modelled from the spec: the per-frame schedule pipeline.  The runner code
of `bevy_app`/`bevy_render` that sequences the main-world schedules before
the render sub-app is not under `src/`; the spec's per-frame data flow
("scene transforms update → … → Visibility Evaluator culls meshes … →
GPU Marshaling serializes everything into the buffers", and "per-light shadow
visibility happens-before shadow-pass sorting") fixes the order: the
main-world `PostUpdate` schedule completes before the render app's
`ExtractSchedule`, which completes before its `Render` schedule. -/
inductive FrameSchedule where
  | postUpdate
  | extractSchedule
  | render
deriving DecidableEq, Fintype, Repr

/-- Rank of a schedule in the frame pipeline (see `FrameSchedule`). -/
def FrameSchedule.rank : FrameSchedule → ℕ
  | .postUpdate => 0
  | .extractSchedule => 1
  | .render => 2

/-- The systems of this plugin relevant to the cross-schedule claim. -/
inductive FrameSystem where
  | check_light_mesh_visibility
  | extract_clusters
  | extract_lights
  | prepare_lights
  | sort_phase_system_shadow
  | prepare_clusters
deriving DecidableEq, Fintype, Repr

/-- The schedule each system is added to, read off `PbrPlugin::build`:
`check_light_mesh_visibility` via `add_systems(PostUpdate, …)` (lines
285-330); `extract_clusters`, `extract_lights` via
`add_systems(ExtractSchedule, …)` (line 351); `prepare_lights`,
`sort_phase_system::<Shadow>`, `prepare_clusters` via
`add_systems(Render, …)` (lines 352-361). -/
def scheduleOf : FrameSystem → FrameSchedule
  | .check_light_mesh_visibility => .postUpdate
  | .extract_clusters => .extractSchedule
  | .extract_lights => .extractSchedule
  | .prepare_lights => .render
  | .sort_phase_system_shadow => .render
  | .prepare_clusters => .render

/-- A frame execution assigns each system a time; it is valid when a system
in an earlier schedule of the frame pipeline runs before every system in a
later schedule (each schedule runs to completion before the next starts). -/
def ValidFrameExec (time : FrameSystem → ℕ) : Prop :=
  ∀ u v : FrameSystem,
    (scheduleOf u).rank < (scheduleOf v).rank → time u < time v

instance (time : FrameSystem → ℕ) : Decidable (ValidFrameExec time) := by
  unfold ValidFrameExec; infer_instance

/-- A concrete valid frame execution, used by the witness theorem. -/
def frameTopoTime : FrameSystem → ℕ
  | .check_light_mesh_visibility => 0
  | .extract_clusters => 1
  | .extract_lights => 2
  | .prepare_lights => 3
  | .sort_phase_system_shadow => 4
  | .prepare_clusters => 5

/-! ## Control-flow embedding of `PbrPlugin::build` for the fatality claim

`PbrPlugin::build` (lib.rs lines 129-378) first performs the main-app work
(asset loading, type registration, system scheduling — all infallible), then
handles its two collaborator structures:

* the render sub-app: `let Ok(render_app) = app.get_sub_app_mut(RenderApp)
  else { return; }` (lines 345-347) — absence is handled by an early,
  non-panicking return;
* the `Core3d` render sub-graph: `graph.get_sub_graph_mut(Core3d).unwrap()`
  (line 366) — absence makes the `unwrap()` panic.
-/

/-- Which collaborator structures are present when `PbrPlugin::build` runs. -/
structure BuildEnv where
  hasRenderApp : Bool
  hasCore3dSubgraph : Bool
deriving DecidableEq, Repr

/-- Outcome of running `PbrPlugin::build`. -/
inductive BuildOutcome where
  /-- The whole body ran, render-app setup included. -/
  | completed
  /-- The early `return` at lines 345-347: main-app setup done, render-app
  setup skipped because the render sub-app is absent. -/
  | skippedRenderSetup
  /-- A panic: `get_sub_graph_mut(Core3d).unwrap()` at line 366 on `None`. -/
  | panicked
deriving DecidableEq, Repr

/-- Control flow of `PbrPlugin::build` over the collaborator environment:
the main-app registrations always succeed; if the render sub-app is absent
the function returns early; otherwise it reaches
`graph.get_sub_graph_mut(Core3d).unwrap()`, which panics exactly when the
`Core3d` sub-graph is absent. -/
def pbrPluginBuild (env : BuildEnv) : BuildOutcome :=
  if !env.hasRenderApp then .skippedRenderSetup
  else if !env.hasCore3dSubgraph then .panicked
  else .completed

/-! ## Gizmo-circle embedding (src/crates/bevy_gizmos/src/circles.rs)

The scalar type `f32` is abstracted to a field `K`, and the trigonometric
primitive `f32::sin_cos` together with the constant `TAU` are passed as
parameters; the theorems instantiate them with `Real.sin`/`Real.cos` and
`2 * π`, where the exact identities `sin 0 = 0`, `cos 0 = 1` that the claims
appeal to hold. -/

variable {K : Type}

/-- `glam::Vec2`: a 2-component vector over the scalar `K`. -/
structure Vec2 (K : Type) where
  x : K
  y : K
deriving DecidableEq, Repr

/-- `glam::Vec3`: a 3-component vector over the scalar `K`. -/
structure Vec3 (K : Type) where
  x : K
  y : K
  z : K
deriving DecidableEq, Repr

/-- Componentwise `Vec2 + Vec2`. -/
def Vec2.add [Add K] (a b : Vec2 K) : Vec2 K := ⟨a.x + b.x, a.y + b.y⟩

/-- Componentwise `Vec2 * Vec2` (glam's `Mul` for `Vec2`). -/
def Vec2.mul [Mul K] (a b : Vec2 K) : Vec2 K := ⟨a.x * b.x, a.y * b.y⟩

/-- `Vec2::splat`. -/
def Vec2.splat (v : K) : Vec2 K := ⟨v, v⟩

/-- `Vec2::extend`: append a z-component. -/
def Vec2.extend (a : Vec2 K) (z : K) : Vec3 K := ⟨a.x, a.y, z⟩

/-- Componentwise `Vec3 + Vec3`. -/
def Vec3.add [Add K] (a b : Vec3 K) : Vec3 K := ⟨a.x + b.x, a.y + b.y, a.z + b.z⟩

/-- `Vec3` scaled by a scalar. -/
def Vec3.smul [Mul K] (c : K) (a : Vec3 K) : Vec3 K := ⟨c * a.x, c * a.y, c * a.z⟩

/-- `Vec3::dot`. -/
def Vec3.dot [Add K] [Mul K] (a b : Vec3 K) : K := a.x * b.x + a.y * b.y + a.z * b.z

/-- `Vec3::cross`. -/
def Vec3.cross [Sub K] [Mul K] (a b : Vec3 K) : Vec3 K :=
  ⟨a.y * b.z - a.z * b.y, a.z * b.x - a.x * b.z, a.x * b.y - a.y * b.x⟩

/-- `glam::Mat2`, stored as its two column vectors. -/
structure Mat2 (K : Type) where
  x_axis : Vec2 K
  y_axis : Vec2 K
deriving DecidableEq, Repr

/-- `Mat2::IDENTITY`. -/
def Mat2.identity [Zero K] [One K] : Mat2 K := ⟨⟨1, 0⟩, ⟨0, 1⟩⟩

/-- `Mat2::from_angle`: columns `(cos θ, sin θ)` and `(-sin θ, cos θ)`,
with the trigonometric primitive passed as the `sincos` parameter
(returning the `(sin, cos)` pair like `f32::sin_cos`). -/
def Mat2.from_angle [Neg K] (sincos : K → K × K) (θ : K) : Mat2 K :=
  let p := sincos θ
  ⟨⟨p.2, p.1⟩, ⟨-p.1, p.2⟩⟩

/-- `Mat2 * Vec2`: linear combination of the columns. -/
def Mat2.mulVec [Add K] [Mul K] (m : Mat2 K) (v : Vec2 K) : Vec2 K :=
  ⟨m.x_axis.x * v.x + m.y_axis.x * v.y, m.x_axis.y * v.x + m.y_axis.y * v.y⟩

/-- `glam::Quat`, as its four components. -/
structure Quat (K : Type) where
  x : K
  y : K
  z : K
  w : K
deriving DecidableEq, Repr

/-- `Quat * Vec3` (glam's `mul_vec3`):
`v * (w² - b·b) + b * (2 (v·b)) + (b × v) * (2 w)` where `b = (x, y, z)`. -/
def Quat.mulVec3 [Add K] [Sub K] [Mul K] (q : Quat K) (v : Vec3 K) : Vec3 K :=
  let b : Vec3 K := ⟨q.x, q.y, q.z⟩
  (Vec3.smul (q.w * q.w - Vec3.dot b b) v).add
    ((Vec3.smul (Vec3.dot v b + Vec3.dot v b) b).add
      (Vec3.smul (q.w + q.w) (Vec3.cross b v)))

/-- `bevy_render::color::LegacyColor`, modelled as an inert payload: the
circle code passes colors through without inspecting them, and the color
type itself is outside `src/`. -/
structure LegacyColor where
  val : ℕ
deriving DecidableEq, Repr

/-- Modelled from the spec: the `Gizmos` immediate-mode context (its
`enabled` flag and the line buffer behind `Gizmos::linestrip` /
`Gizmos::linestrip_2d`) lives in `bevy_gizmos/src/lib.rs`, which is not under
`src/`.  The spec describes the gizmo renderer as "the debug-draw/gizmo
immediate-mode line renderer (a thin builder-pattern wrapper)", so the
context is modelled as an `enabled` flag plus buffers of the emitted 3D and
2D line strips. -/
structure Gizmos (K : Type) where
  enabled : Bool
  strips : List (List (Vec3 K) × LegacyColor)
  strips_2d : List (List (Vec2 K) × LegacyColor)
deriving DecidableEq, Repr

/-- Modelled from the spec: `Gizmos::linestrip` (in `bevy_gizmos/src/lib.rs`,
not under `src/`) appends one 3D line strip to the immediate-mode buffer. -/
def Gizmos.linestrip (g : Gizmos K) (positions : List (Vec3 K))
    (color : LegacyColor) : Gizmos K :=
  { g with strips := g.strips ++ [(positions, color)] }

/-- Modelled from the spec: `Gizmos::linestrip_2d` (in
`bevy_gizmos/src/lib.rs`, not under `src/`) appends one 2D line strip to the
immediate-mode buffer. -/
def Gizmos.linestrip_2d (g : Gizmos K) (positions : List (Vec2 K))
    (color : LegacyColor) : Gizmos K :=
  { g with strips_2d := g.strips_2d ++ [(positions, color)] }

/-- `DEFAULT_CIRCLE_SEGMENTS` (circles.rs line 12). -/
def DEFAULT_CIRCLE_SEGMENTS : ℕ := 32

/-- `ellipse_inner` (circles.rs lines 14-20): the vertices
`(sin αᵢ, cos αᵢ) * half_size` for `αᵢ = i * TAU / segments`,
`i = 0, …, segments`. -/
def ellipse_inner [Field K] (sincos : K → K × K) (tau : K)
    (half_size : Vec2 K) (segments : ℕ) : List (Vec2 K) :=
  (List.range (segments + 1)).map fun (i : ℕ) =>
    let angle : K := (i : K) * tau / (segments : K)
    let p := sincos angle
    Vec2.mul ⟨p.1, p.2⟩ half_size

/-- `EllipseBuilder` (circles.rs lines 176-183).  In Rust the builder holds a
`&mut Gizmos` borrow; here state passing makes that explicit: the `Gizmos`
context is an extra argument of `EllipseBuilder.drop`. -/
structure EllipseBuilder (K : Type) where
  position : Vec3 K
  rotation : Quat K
  half_size : Vec2 K
  color : LegacyColor
  segments : ℕ
deriving DecidableEq, Repr

/-- `Ellipse2dBuilder` (circles.rs lines 207-214), with the `&mut Gizmos`
borrow made explicit as an argument of `Ellipse2dBuilder.drop`. -/
structure Ellipse2dBuilder (K : Type) where
  position : Vec2 K
  rotation : Mat2 K
  half_size : Vec2 K
  color : LegacyColor
  segments : ℕ
deriving DecidableEq, Repr

/-- `Gizmos::ellipse` (circles.rs lines 44-59). -/
def Gizmos.ellipse (position : Vec3 K) (rotation : Quat K) (half_size : Vec2 K)
    (color : LegacyColor) : EllipseBuilder K :=
  { position, rotation, half_size, color, segments := DEFAULT_CIRCLE_SEGMENTS }

/-- `Gizmos::ellipse_2d` (circles.rs lines 82-97): the builder's rotation is
`Mat2::from_angle(angle)`. -/
def Gizmos.ellipse_2d [Neg K] (sincos : K → K × K) (position : Vec2 K)
    (angle : K) (half_size : Vec2 K) (color : LegacyColor) :
    Ellipse2dBuilder K :=
  { position, rotation := Mat2.from_angle sincos angle, half_size, color,
    segments := DEFAULT_CIRCLE_SEGMENTS }

/-- `Gizmos::circle_2d` (circles.rs lines 158-172): the builder's rotation is
`Mat2::IDENTITY` and its half size is `Vec2::splat(radius)`. -/
def Gizmos.circle_2d [Zero K] [One K] (position : Vec2 K) (radius : K)
    (color : LegacyColor) : Ellipse2dBuilder K :=
  { position, rotation := Mat2.identity, half_size := Vec2.splat radius, color,
    segments := DEFAULT_CIRCLE_SEGMENTS }

/-- `EllipseBuilder::segments` (circles.rs lines 186-190). -/
def EllipseBuilder.setSegments (b : EllipseBuilder K) (segments : ℕ) :
    EllipseBuilder K :=
  { b with segments }

/-- `Ellipse2dBuilder::segments` (circles.rs lines 217-221). -/
def Ellipse2dBuilder.setSegments (b : Ellipse2dBuilder K) (segments : ℕ) :
    Ellipse2dBuilder K :=
  { b with segments }

/-- `Drop for EllipseBuilder` (circles.rs lines 193-204): if the context is
disabled, return leaving the context unchanged; otherwise rotate each
`ellipse_inner` vertex by the builder's quaternion, translate by the
builder's position, and append the strip via `Gizmos::linestrip`. -/
def EllipseBuilder.drop [Field K] (sincos : K → K × K) (tau : K)
    (b : EllipseBuilder K) (g : Gizmos K) : Gizmos K :=
  if g.enabled then
    g.linestrip
      (((ellipse_inner sincos tau b.half_size b.segments).map
          (fun v => b.rotation.mulVec3 (v.extend 0))).map
        (fun v => v.add b.position))
      b.color
  else g

/-- `Drop for Ellipse2dBuilder` (circles.rs lines 224-235): if the context is
disabled, return leaving the context unchanged; otherwise rotate each
`ellipse_inner` vertex by the builder's `Mat2`, translate by the builder's
position, and append the strip via `Gizmos::linestrip_2d`. -/
def Ellipse2dBuilder.drop [Field K] (sincos : K → K × K) (tau : K)
    (b : Ellipse2dBuilder K) (g : Gizmos K) : Gizmos K :=
  if g.enabled then
    g.linestrip_2d
      (((ellipse_inner sincos tau b.half_size b.segments).map
          (fun v => b.rotation.mulVec v)).map
        (fun v => v.add b.position))
      b.color
  else g

/-! ## Theorems for the schedule-ordering claims C1–C6 -/

/-- C1: In the schedule built by `PbrPlugin::build`, `add_clusters`
(in `SimulationLightSystems::AddClusters`) runs before
`assign_lights_to_clusters` (in `SimulationLightSystems::AssignLightsToClusters`)
in every valid execution, because `configure_sets` chains the two sets; so no
execution lets assignment observe a grid not sized this frame. -/
theorem add_clusters_before_assign_lights (pos : PbrNode → ℕ)
    (h : ValidExec pos) :
    pos PbrNode.add_clusters < pos PbrNode.assign_lights_to_clusters :=
  h _ _ (by decide)

theorem add_clusters_before_assign_lights_witness :
    ValidExec topoPos ∧
      topoPos PbrNode.add_clusters < topoPos PbrNode.assign_lights_to_clusters :=
  ⟨by decide, add_clusters_before_assign_lights topoPos (by decide)⟩

/-- C2: In every valid execution of the schedule built by `PbrPlugin::build`,
both systems of the cascade-building stage
(`SimulationLightSystems::UpdateDirectionalLightCascades`, i.e.
`clear_directional_light_cascades` and `build_directional_light_cascades`)
run before `update_directional_light_frusta`, which is declared
`.after(SimulationLightSystems::UpdateDirectionalLightCascades)`; so
directional frusta are never derived from a prior frame's cascades within
the same frame's pass. -/
theorem cascades_before_directional_frusta (pos : PbrNode → ℕ)
    (h : ValidExec pos) :
    pos PbrNode.clear_directional_light_cascades
        < pos PbrNode.update_directional_light_frusta ∧
      pos PbrNode.build_directional_light_cascades
        < pos PbrNode.update_directional_light_frusta :=
  ⟨h _ _ (by decide), h _ _ (by decide)⟩

theorem cascades_before_directional_frusta_witness :
    ValidExec topoPos ∧
      (topoPos PbrNode.clear_directional_light_cascades
          < topoPos PbrNode.update_directional_light_frusta ∧
        topoPos PbrNode.build_directional_light_cascades
          < topoPos PbrNode.update_directional_light_frusta) :=
  ⟨by decide, cascades_before_directional_frusta topoPos (by decide)⟩

/-- C3: In every valid execution of the schedule built by `PbrPlugin::build`,
each of the three frusta-update systems (`update_directional_light_frusta`,
`update_point_light_frusta`, `update_spot_light_frusta`, all in
`SimulationLightSystems::UpdateLightFrusta`) runs before
`check_light_mesh_visibility` (in
`SimulationLightSystems::CheckLightVisibility`), which is declared
`.after(SimulationLightSystems::UpdateLightFrusta)`. -/
theorem frusta_before_light_visibility (pos : PbrNode → ℕ)
    (h : ValidExec pos) :
    pos PbrNode.update_directional_light_frusta
        < pos PbrNode.check_light_mesh_visibility ∧
      pos PbrNode.update_point_light_frusta
        < pos PbrNode.check_light_mesh_visibility ∧
      pos PbrNode.update_spot_light_frusta
        < pos PbrNode.check_light_mesh_visibility :=
  ⟨h _ _ (by decide), h _ _ (by decide), h _ _ (by decide)⟩

theorem frusta_before_light_visibility_witness :
    ValidExec topoPos ∧
      (topoPos PbrNode.update_directional_light_frusta
          < topoPos PbrNode.check_light_mesh_visibility ∧
        topoPos PbrNode.update_point_light_frusta
          < topoPos PbrNode.check_light_mesh_visibility ∧
        topoPos PbrNode.update_spot_light_frusta
          < topoPos PbrNode.check_light_mesh_visibility) :=
  ⟨by decide, frusta_before_light_visibility topoPos (by decide)⟩

/-- C4: In every valid execution of the schedule built by `PbrPlugin::build`,
`clear_directional_light_cascades` runs strictly before
`build_directional_light_cascades` — the two systems are chained — so no
execution interleaves cascade building with un-cleared prior cascades. -/
theorem clear_before_build_cascades (pos : PbrNode → ℕ)
    (h : ValidExec pos) :
    pos PbrNode.clear_directional_light_cascades
      < pos PbrNode.build_directional_light_cascades :=
  h _ _ (by decide)

theorem clear_before_build_cascades_witness :
    ValidExec topoPos ∧
      topoPos PbrNode.clear_directional_light_cascades
        < topoPos PbrNode.build_directional_light_cascades :=
  ⟨by decide, clear_before_build_cascades topoPos (by decide)⟩

/-- C5: In every valid execution of the schedule built by `PbrPlugin::build`,
world-transform propagation (`TransformSystem::TransformPropagate`) completes
before both systems of the Cascade Builder stage and before every
frusta-update system (directional, point, and spot), since each of these five
systems is declared `.after(TransformSystem::TransformPropagate)`. -/
theorem transform_propagate_before_cascades_and_frusta (pos : PbrNode → ℕ)
    (h : ValidExec pos) :
    pos PbrNode.transform_propagate
        < pos PbrNode.clear_directional_light_cascades ∧
      pos PbrNode.transform_propagate
        < pos PbrNode.build_directional_light_cascades ∧
      pos PbrNode.transform_propagate
        < pos PbrNode.update_directional_light_frusta ∧
      pos PbrNode.transform_propagate
        < pos PbrNode.update_point_light_frusta ∧
      pos PbrNode.transform_propagate
        < pos PbrNode.update_spot_light_frusta :=
  ⟨h _ _ (by decide), h _ _ (by decide), h _ _ (by decide),
    h _ _ (by decide), h _ _ (by decide)⟩

theorem transform_propagate_before_cascades_and_frusta_witness :
    ValidExec topoPos ∧
      (topoPos PbrNode.transform_propagate
          < topoPos PbrNode.clear_directional_light_cascades ∧
        topoPos PbrNode.transform_propagate
          < topoPos PbrNode.build_directional_light_cascades ∧
        topoPos PbrNode.transform_propagate
          < topoPos PbrNode.update_directional_light_frusta ∧
        topoPos PbrNode.transform_propagate
          < topoPos PbrNode.update_point_light_frusta ∧
        topoPos PbrNode.transform_propagate
          < topoPos PbrNode.update_spot_light_frusta) :=
  ⟨by decide, transform_propagate_before_cascades_and_frusta topoPos (by decide)⟩

/-- C6: `check_light_mesh_visibility` is added to the main world's
`PostUpdate` schedule while `sort_phase_system::<Shadow>` is added to the
render app's `Render` schedule (`RenderSet::PhaseSort`); in every valid frame
execution — where the main-world schedules complete before the render app's
`ExtractSchedule` and `Render` schedules — per-light shadow visibility
evaluation happens before shadow-pass sorting. -/
theorem light_visibility_before_shadow_sort (time : FrameSystem → ℕ)
    (h : ValidFrameExec time) :
    time FrameSystem.check_light_mesh_visibility
      < time FrameSystem.sort_phase_system_shadow :=
  h _ _ (by decide)

theorem light_visibility_before_shadow_sort_witness :
    ValidFrameExec frameTopoTime ∧
      frameTopoTime FrameSystem.check_light_mesh_visibility
        < frameTopoTime FrameSystem.sort_phase_system_shadow :=
  ⟨by decide, light_visibility_before_shadow_sort frameTopoTime (by decide)⟩

/-- C7 counterexample: with the render sub-app present but the `Core3d`
render sub-graph absent — an absent expected collaborator structure —
`PbrPlugin::build` panics (via `get_sub_graph_mut(Core3d).unwrap()`),
refuting the claim that no code path in `PbrPlugin::build` can panic when an
expected collaborator structure is absent. -/
theorem pbr_build_panics_without_core3d :
    pbrPluginBuild { hasRenderApp := true, hasCore3dSubgraph := false }
      = BuildOutcome.panicked := by decide

/-- C7 (amended): `PbrPlugin::build` degrades rather than panicking when the
render sub-app is absent (it returns early after the main-app setup), and
the only panicking path among the modelled collaborator absences is the
`Core3d` sub-graph being absent while the render sub-app is present. -/
theorem pbr_build_panic_characterisation (env : BuildEnv) :
    pbrPluginBuild env = BuildOutcome.panicked
      ↔ env.hasRenderApp = true ∧ env.hasCore3dSubgraph = false := by
  cases env with
  | mk r c => cases r <;> cases c <;> decide

/-! ## Theorems for the gizmo-circle claims -/

/-- C8: for every `half_size` and every `segments ≥ 1`,
`ellipse_inner(half_size, segments)` — instantiated with real sine/cosine
and `TAU = 2π` — yields exactly `segments + 1` vertices, and its first
vertex is exactly `(0, half_size.y)` since `sin 0 = 0` and `cos 0 = 1`
exactly; the emitted polyline has one more point than its segment count. -/
theorem ellipse_inner_count_and_first (half_size : Vec2 ℝ) (segments : ℕ)
    (h : 1 ≤ segments) :
    (ellipse_inner (fun θ => (Real.sin θ, Real.cos θ)) (2 * Real.pi)
        half_size segments).length = segments + 1 ∧
      (ellipse_inner (fun θ => (Real.sin θ, Real.cos θ)) (2 * Real.pi)
          half_size segments).head? = some ⟨0, half_size.y⟩ := by
  refine ⟨by rw [ellipse_inner, List.length_map, List.length_range], ?_⟩
  rw [ellipse_inner, List.range_succ_eq_map]
  simp [Vec2.mul]

theorem ellipse_inner_count_and_first_witness :
    (ellipse_inner (fun θ => (Real.sin θ, Real.cos θ)) (2 * Real.pi)
        (⟨2, 5⟩ : Vec2 ℝ) 3).length = 3 + 1 ∧
      (ellipse_inner (fun θ => (Real.sin θ, Real.cos θ)) (2 * Real.pi)
          (⟨2, 5⟩ : Vec2 ℝ) 3).head? = some ⟨0, (5 : ℝ)⟩ :=
  ellipse_inner_count_and_first ⟨2, 5⟩ 3 (by decide)

/-- C9: `Gizmos::circle_2d(position, radius, color)` constructs the very same
builder as `Gizmos::ellipse_2d(position, 0.0, Vec2::splat(radius), color)` —
`Mat2::from_angle 0` equals `Mat2::IDENTITY` exactly, both have half size
`(radius, radius)` — and therefore dropping either builder with the same
segment count on the same context emits the same line strip. -/
theorem circle_2d_refines_ellipse_2d (position : Vec2 ℝ) (radius : ℝ)
    (color : LegacyColor) (n : ℕ) (g : Gizmos ℝ) :
    Gizmos.circle_2d position radius color
        = Gizmos.ellipse_2d (fun θ => (Real.sin θ, Real.cos θ)) position 0
            (Vec2.splat radius) color ∧
      ((Gizmos.circle_2d position radius color).setSegments n).drop
          (fun θ => (Real.sin θ, Real.cos θ)) (2 * Real.pi) g
        = ((Gizmos.ellipse_2d (fun θ => (Real.sin θ, Real.cos θ)) position 0
              (Vec2.splat radius) color).setSegments n).drop
            (fun θ => (Real.sin θ, Real.cos θ)) (2 * Real.pi) g := by
  have hb : Gizmos.circle_2d position radius color
      = Gizmos.ellipse_2d (fun θ => (Real.sin θ, Real.cos θ)) position 0
          (Vec2.splat radius) color := by
    simp [Gizmos.circle_2d, Gizmos.ellipse_2d, Mat2.from_angle, Mat2.identity]
  exact ⟨hb, by rw [hb]⟩

/-- C10: when the owning context is disabled, dropping an `EllipseBuilder` or
an `Ellipse2dBuilder` performs no drawing at all: the context — and with it
the line buffer — is returned unchanged, for every position, rotation, half
size, color, and segment count. -/
theorem drop_disabled_is_noop (b3 : EllipseBuilder ℝ) (b2 : Ellipse2dBuilder ℝ)
    (g : Gizmos ℝ) (h : g.enabled = false) :
    b3.drop (fun θ => (Real.sin θ, Real.cos θ)) (2 * Real.pi) g = g ∧
      b2.drop (fun θ => (Real.sin θ, Real.cos θ)) (2 * Real.pi) g = g := by
  constructor <;> simp [EllipseBuilder.drop, Ellipse2dBuilder.drop, h]

theorem drop_disabled_is_noop_witness :
    EllipseBuilder.drop (fun θ => (Real.sin θ, Real.cos θ)) (2 * Real.pi)
        ⟨⟨1, 2, 3⟩, ⟨0, 0, 0, 1⟩, ⟨2, 5⟩, ⟨7⟩, 32⟩ ⟨false, [], []⟩
        = ⟨false, [], []⟩ ∧
      Ellipse2dBuilder.drop (fun θ => (Real.sin θ, Real.cos θ)) (2 * Real.pi)
        ⟨⟨1, 2⟩, Mat2.identity, ⟨2, 5⟩, ⟨7⟩, 32⟩ ⟨false, [], []⟩
        = ⟨false, [], []⟩ :=
  drop_disabled_is_noop _ _ _ rfl
